import Mathlib

/-!
Formal model of `src/server.js` (PLC Construction Careers backend).

The server wires a single Express request handler (`POST /api/submit-application`)
to a Mongoose model (`Application`) and a nodemailer transporter, plus a
`GET /api/health` probe.  We embed the request handler, the Mongoose schema
validation/casting pipeline it triggers, and the health handler as pure Lean
functions; the nondeterministic environment (generated id, clock, store
connectivity, mailer outcome) is passed in explicitly as an `Env`.
-/

/-- A JavaScript value as it can appear in a parsed JSON request body.
Objects/arrays nested inside filter values do not occur in any claim and are
not modelled; numbers are modelled as integers. -/
inductive JsValue where
  | str (s : String)
  | num (n : Int)
  | bool (b : Bool)
  | null
deriving DecidableEq, Repr

/-- JavaScript truthiness of a value: `""`, `0`, `false` and `null` are falsy. -/
def truthy : JsValue → Bool
  | .str s => !(s == "")
  | .num n => !(n == 0)
  | .bool b => b
  | .null => false

/-- Truthiness of a possibly-absent object property (`undefined` is falsy). -/
def truthyOpt : Option JsValue → Bool
  | some v => truthy v
  | none => false

/-- A parsed JSON object body: association list of distinct keys (JSON.parse
keeps the last duplicate, so the object seen by the handler has unique keys). -/
abbrev Payload := List (String × JsValue)

/-- The four destructured names in
`const { email, firstName, lastName, country, ...searchFilters } = req.body`. -/
def requiredFields : List String := ["email", "firstName", "lastName", "country"]

/-- The `...searchFilters` rest object: every own property whose key is not one
of the four destructured names (server.js line 89). -/
def restFields (body : Payload) : Payload :=
  body.filter (fun kv => !(requiredFields.contains kv.1))

/-- The `missingFields` array built by the handler (server.js lines 92-96):
each required field whose value is not truthy is pushed, in declaration order. -/
def missingFields (body : Payload) : List String :=
  requiredFields.filter (fun f => !(truthyOpt (body.lookup f)))

/-- Test of the unanchored regex `/\S+@\S+\.\S+/` used by the schema `match`
validator on `email` (server.js line 41).  The regex matches `s` iff `s` has a
contiguous segment (non-space)+ at-sign (non-space)+ dot (non-space)+ .  That
holds iff there are positions `b < c` with an at-sign at `b`, a dot at `c`, a
non-space character just before `b`, at least one character strictly between
`b` and `c` with all of them non-space, and a non-space character just after
`c` (the at-sign and the dot are themselves non-space, so one neighbour on each
side is enough for the (non-space)+ groups). -/
def emailRegexMatch (s : String) : Bool :=
  let cs := s.toList
  (List.range cs.length).any fun b =>
    (List.range cs.length).any fun c =>
      (cs.getD b ' ' == '@') && (cs.getD c ' ' == '.') &&
      decide (1 ≤ b) && !(cs.getD (b - 1) ' ').isWhitespace &&
      decide (b + 1 < c) &&
      ((List.range (c - b - 1)).all fun i => !(cs.getD (b + 1 + i) ' ').isWhitespace) &&
      decide (c + 1 < cs.length) && !(cs.getD (c + 1) ' ').isWhitespace

/-- The `trim: true` setter on `firstName`/`lastName`
(JS `String.prototype.trim`): remove whitespace from both ends. -/
def jsTrim (s : String) : String :=
  ⟨((s.toList.dropWhile Char.isWhitespace).reverse.dropWhile Char.isWhitespace).reverse⟩

/-- Mongoose cast of a JS value to the `String` schema type.  `none` means the
path stays unset: `undefined` leaves the path unset and `null` is stored as
null — both fail a `required` validator and neither contributes a string, so we
merge them.  Numbers and booleans are cast to their decimal/literal strings. -/
def castString : Option JsValue → Option String
  | some (.str s) => some s
  | some (.num n) => some (toString n)
  | some (.bool b) => some (if b then "true" else "false")
  | some .null => none
  | none => none

/-- One Mongoose validation failure on a path. -/
structure ValErr where
  path : String
  msg : String
deriving DecidableEq, Repr

/-- The error a rejected store call surfaces to the handler's catch block:
only `name` and `message` are consulted there (server.js lines 140-143). -/
structure StoreError where
  name : String
  message : String
deriving DecidableEq, Repr

/-- Mongoose `required` check for a `String` path: set, non-null and non-empty. -/
def requiredOk : Option String → Bool
  | some s => !(s == "")
  | none => false

/-- Per-path validation of `applicationSchema` (server.js lines 37-67), run on
the already-cast (and, for the names, trimmed) values.  On each path `required`
runs first; the `match` validator on `email` runs only on a set, non-empty
value (Mongoose skips `match` on null/empty).  Custom messages come from the
schema. -/
def validateApplication (email firstName lastName country : Option String) :
    List ValErr :=
  (if !(requiredOk email) then [⟨"email", "Email is required"⟩]
   else if !(emailRegexMatch (email.getD "")) then
     [⟨"email", "Invalid email format"⟩]
   else []) ++
  (if !(requiredOk firstName) then [⟨"firstName", "First name is required"⟩] else []) ++
  (if !(requiredOk lastName) then [⟨"lastName", "Last name is required"⟩] else []) ++
  (if !(requiredOk country) then [⟨"country", "Country is required"⟩] else [])

/-- The four paths declared under `searchFilters` in the schema
(server.js lines 57-62), in declaration order. -/
def knownFilterKeys : List String := ["country", "city", "sector", "employmentType"]

/-- What the store keeps of the handler's `searchFilters` object: the schema
declares only four `String` paths under `searchFilters`, and Mongoose strict
mode (the default) silently drops values for keys that are not schema paths.
Declared keys that are present are cast to `String`; unset/null ones are
omitted. -/
def castFilters (rest : Payload) : List (String × String) :=
  knownFilterKeys.filterMap fun k =>
    match castString (rest.lookup k) with
    | some s => some (k, s)
    | none => none

/-- An Application document as persisted (and echoed back as `data`):
`id` is the generated `_id`, `createdAt` the `Date.now` default (ms). -/
structure StoredRecord where
  id : Nat
  email : String
  firstName : String
  lastName : String
  country : String
  searchFilters : List (String × String)
  createdAt : Nat
deriving DecidableEq, Repr

/-- Outcome of the store insert once client-side validation has passed. -/
inductive StoreBehavior where
  | ok
  | fail (name message : String)
deriving DecidableEq, Repr

/-- The per-request environment: store outcome, whether `sendMail` resolves,
the generated `_id` and the clock value used for the `createdAt` default. -/
structure Env where
  store : StoreBehavior
  mailOk : Bool
  newId : Nat
  now : Nat
deriving DecidableEq, Repr

/-- The message of a Mongoose `ValidationError`:
the model name and each failing path with its message. -/
def valErrMessage (errs : List ValErr) : String :=
  "Application validation failed: " ++
    String.intercalate ", " (errs.map fun e => e.path ++ ": " ++ e.msg)

/-- Model of `Application.create` (server.js lines 105-111): cast each path, apply the
`trim: true` setter to `firstName`/`lastName` (setters run before validators),
validate; a validation failure rejects with an error named `ValidationError`
before any insert is attempted, otherwise the insert succeeds or fails
according to the store, and a successful insert fills in the generated id and
the `createdAt` default. -/
def applicationCreate (env : Env) (email firstName lastName country : Option JsValue)
    (searchFilters : Payload) : Except StoreError StoredRecord :=
  let e := castString email
  let f := (castString firstName).map jsTrim
  let l := (castString lastName).map jsTrim
  let c := castString country
  let errs := validateApplication e f l c
  if errs.isEmpty then
    match env.store with
    | .ok => .ok ⟨env.newId, e.getD "", f.getD "", l.getD "", c.getD "",
                  castFilters searchFilters, env.now⟩
    | .fail n m => .error ⟨n, m⟩
  else
    .error ⟨"ValidationError", valErrMessage errs⟩

/-- What one run of the submit handler produces: the JSON response fields and,
as observables, the persisted record (if any) and whether the notification
email went out. -/
structure HandlerResult where
  status : Nat
  success : Bool
  error : Option String
  message : Option String
  data : Option StoredRecord
  persisted : Option StoredRecord
  emailSent : Bool
deriving DecidableEq, Repr

/-- The `POST /api/submit-application` handler (server.js lines 87-146).
Missing-field check first (400 with all missing names joined by `, `);
then `Application.create`; a thrown error is mapped to 400 exactly when its
`name` is `ValidationError`, else 500, with body error
`error.message || 'Internal server error'` (so the fallback text appears only
when the message is the empty string).  A `sendMail` rejection is caught and
logged and does not change the 201 response. -/
def submitApplication (env : Env) (body : Payload) : HandlerResult :=
  let email := body.lookup "email"
  let firstName := body.lookup "firstName"
  let lastName := body.lookup "lastName"
  let country := body.lookup "country"
  let searchFilters := restFields body
  let missing := missingFields body
  if missing.length > 0 then
    { status := 400, success := false,
      error := some ("Missing required fields: " ++ String.intercalate ", " missing),
      message := none, data := none, persisted := none, emailSent := false }
  else
    match applicationCreate env email firstName lastName country searchFilters with
    | .ok r =>
      { status := 201, success := true, error := none,
        message := some "Application submitted successfully",
        data := some r, persisted := some r, emailSent := env.mailOk }
    | .error err =>
      { status := if err.name == "ValidationError" then 400 else 500,
        success := false,
        error := some (if err.message == "" then "Internal server error" else err.message),
        message := none, data := none, persisted := none, emailSent := false }


/-- A broken-down UTC clock reading, as `new Date()` captures one:
calendar date plus time of day with millisecond precision. -/
structure DateTime where
  year : Nat
  month : Nat
  day : Nat
  hour : Nat
  minute : Nat
  second : Nat
  ms : Nat
deriving DecidableEq, Repr

/-- A clock reading an actual clock can produce (the range in which
`Date.prototype.toISOString` uses the plain `YYYY-…` form). -/
def DateTime.wf (d : DateTime) : Prop :=
  1970 ≤ d.year ∧ d.year ≤ 9999 ∧ 1 ≤ d.month ∧ d.month ≤ 12 ∧
  1 ≤ d.day ∧ d.day ≤ 31 ∧ d.hour ≤ 23 ∧ d.minute ≤ 59 ∧
  d.second ≤ 59 ∧ d.ms ≤ 999

instance (d : DateTime) : Decidable d.wf := by
  unfold DateTime.wf; infer_instance

/-- The decimal digit character for `n % 10`. -/
def digitChar (n : Nat) : Char :=
  match n % 10 with
  | 0 => '0' | 1 => '1' | 2 => '2' | 3 => '3' | 4 => '4'
  | 5 => '5' | 6 => '6' | 7 => '7' | 8 => '8' | _ => '9'

/-- Two-digit zero-padded decimal rendering (of a value below 100). -/
def pad2 (n : Nat) : List Char := [digitChar (n / 10), digitChar n]

/-- Three-digit zero-padded decimal rendering (of a value below 1000). -/
def pad3 (n : Nat) : List Char := [digitChar (n / 100), digitChar (n / 10), digitChar n]

/-- Four-digit zero-padded decimal rendering (of a value below 10000). -/
def pad4 (n : Nat) : List Char :=
  [digitChar (n / 1000), digitChar (n / 100), digitChar (n / 10), digitChar n]

/-- Model of `Date.prototype.toISOString` on a broken-down UTC reading:
`YYYY-MM-DDTHH:mm:ss.sssZ`. -/
def toISOString (d : DateTime) : String :=
  ⟨pad4 d.year ++ '-' :: pad2 d.month ++ '-' :: pad2 d.day ++ 'T' :: pad2 d.hour ++
   ':' :: pad2 d.minute ++ ':' :: pad2 d.second ++ '.' :: pad3 d.ms ++ ['Z']⟩

/-- Numeric value of a decimal digit character. -/
def digitVal (c : Char) : Nat := c.toNat - 48

/-- Syntactic validity as an ISO-8601 UTC timestamp: exactly the shape
`YYYY-MM-DDTHH:mm:ss.sssZ` with decimal digits in every numeric position and
the calendar/time fields in range. -/
def isValidISO8601 (s : String) : Bool :=
  match s.toList with
  | [y1, y2, y3, y4, '-', mo1, mo2, '-', d1, d2, 'T', h1, h2, ':',
     mi1, mi2, ':', s1, s2, '.', f1, f2, f3, 'Z'] =>
    [y1, y2, y3, y4, mo1, mo2, d1, d2, h1, h2, mi1, mi2, s1, s2, f1, f2, f3].all
      Char.isDigit &&
    (let mo := digitVal mo1 * 10 + digitVal mo2
     let dd := digitVal d1 * 10 + digitVal d2
     let hh := digitVal h1 * 10 + digitVal h2
     let mi := digitVal mi1 * 10 + digitVal mi2
     let ss := digitVal s1 * 10 + digitVal s2
     decide (1 ≤ mo) && decide (mo ≤ 12) && decide (1 ≤ dd) && decide (dd ≤ 31) &&
     decide (hh ≤ 23) && decide (mi ≤ 59) && decide (ss ≤ 59))
  | _ => false

/-- The JSON body of the `GET /api/health` response, plus the status code
(`res.json` leaves it at 200). -/
structure HealthResponse where
  statusCode : Nat
  status : String
  database : String
  timestamp : String
deriving DecidableEq, Repr

/-- The `GET /api/health` handler (server.js lines 165-171).  `readyState` is
`mongoose.connection.readyState`; the mongoose connection is live (connected)
exactly when it is `1` (0 disconnected, 2 connecting, 3 disconnecting). -/
def healthHandler (readyState : Nat) (now : DateTime) : HealthResponse :=
  { statusCode := 200,
    status := "operational",
    database := if readyState == 1 then "connected" else "disconnected",
    timestamp := toISOString now }


/-! ## Helper lemmas -/

theorem jsTrim_empty : jsTrim "" = "" := rfl

theorem submitApplication_unfold (env : Env) (body : Payload) :
    submitApplication env body =
    (if (missingFields body).length > 0 then
      { status := 400, success := false,
        error := some ("Missing required fields: " ++
          String.intercalate ", " (missingFields body)),
        message := none, data := none, persisted := none, emailSent := false }
    else
      match applicationCreate env (body.lookup "email") (body.lookup "firstName")
          (body.lookup "lastName") (body.lookup "country") (restFields body) with
      | .ok r =>
        { status := 201, success := true, error := none,
          message := some "Application submitted successfully",
          data := some r, persisted := some r, emailSent := env.mailOk }
      | .error err =>
        { status := if err.name == "ValidationError" then 400 else 500,
          success := false,
          error := some (if err.message == "" then "Internal server error" else err.message),
          message := none, data := none, persisted := none, emailSent := false }) := rfl

theorem applicationCreate_unfold (env : Env)
    (email firstName lastName country : Option JsValue) (searchFilters : Payload) :
    applicationCreate env email firstName lastName country searchFilters =
    (let e := castString email
     let f := (castString firstName).map jsTrim
     let l := (castString lastName).map jsTrim
     let c := castString country
     let errs := validateApplication e f l c
     if errs.isEmpty then
       match env.store with
       | .ok => .ok ⟨env.newId, e.getD "", f.getD "", l.getD "", c.getD "",
                     castFilters searchFilters, env.now⟩
       | .fail n m => .error ⟨n, m⟩
     else
       .error ⟨"ValidationError", valErrMessage errs⟩) := rfl

theorem missingFields_eq_nil (body : Payload)
    (h : ∀ f ∈ requiredFields, truthyOpt (body.lookup f) = true) :
    missingFields body = [] := by
  unfold missingFields
  rw [List.filter_eq_nil_iff]
  intro a ha
  simp [h a ha]

/-- The success path of the handler, fully computed: all four fields present as
truthy strings, email matching the schema regex, names non-empty after the
trim setter, store up. -/
theorem submit_ok (env : Env) (body : Payload) (e f l c : String)
    (he : body.lookup "email" = some (.str e))
    (hf : body.lookup "firstName" = some (.str f))
    (hl : body.lookup "lastName" = some (.str l))
    (hc : body.lookup "country" = some (.str c))
    (hne : e ≠ "") (hmatch : emailRegexMatch e = true)
    (hnf : jsTrim f ≠ "") (hnl : jsTrim l ≠ "") (hnc : c ≠ "")
    (hstore : env.store = .ok) :
    submitApplication env body =
      { status := 201, success := true, error := none,
        message := some "Application submitted successfully",
        data := some ⟨env.newId, e, jsTrim f, jsTrim l, c,
                      castFilters (restFields body), env.now⟩,
        persisted := some ⟨env.newId, e, jsTrim f, jsTrim l, c,
                           castFilters (restFields body), env.now⟩,
        emailSent := env.mailOk } := by
  have hf0 : f ≠ "" := fun h => hnf (by rw [h, jsTrim_empty])
  have hl0 : l ≠ "" := fun h => hnl (by rw [h, jsTrim_empty])
  have hmiss : missingFields body = [] := by
    apply missingFields_eq_nil
    intro g hg
    fin_cases hg <;>
      simp [he, hf, hl, hc, truthyOpt, truthy, hne, hf0, hl0, hnc]
  rw [submitApplication_unfold, hmiss]
  simp only [List.length_nil, gt_iff_lt, lt_self_iff_false, if_false]
  rw [applicationCreate_unfold, he, hf, hl, hc]
  simp only [castString, Option.map]
  have hval : validateApplication (some e) (some (jsTrim f)) (some (jsTrim l)) (some c) = [] := by
    unfold validateApplication
    simp [requiredOk, hne, hmatch, hnf, hnl, hnc]
  rw [hval]
  simp [hstore]

/-! ## C1 -/

/-- C1 counterexample: a valid payload carrying the additional field
`portfolio` gets a 201, but the stored/returned `data` has an empty
`searchFilters` — the extra field is not nested under `searchFilters`, because
the schema declares only four filter paths and strict mode drops the rest. -/
theorem C1_counterexample :
    (restFields
      [("email", JsValue.str "a@b.com"), ("firstName", JsValue.str "Jo"),
       ("lastName", JsValue.str "Doe"), ("country", JsValue.str "US"),
       ("portfolio", JsValue.str "builder")]).lookup "portfolio"
      = some (JsValue.str "builder") ∧
    (submitApplication ⟨.ok, true, 7, 1000⟩
      [("email", JsValue.str "a@b.com"), ("firstName", JsValue.str "Jo"),
       ("lastName", JsValue.str "Doe"), ("country", JsValue.str "US"),
       ("portfolio", JsValue.str "builder")]).status = 201 ∧
    (submitApplication ⟨.ok, true, 7, 1000⟩
      [("email", JsValue.str "a@b.com"), ("firstName", JsValue.str "Jo"),
       ("lastName", JsValue.str "Doe"), ("country", JsValue.str "US"),
       ("portfolio", JsValue.str "builder")]).data =
      some ⟨7, "a@b.com", "Jo", "Doe", "US", [], 1000⟩ := by decide

/-- C1 (amended): for every valid submission payload the response has status
201 and its `data` is the submitted required fields (names trimmed) plus those
additional fields among the four declared filter keys nested under
`searchFilters` (additional fields outside those four are dropped by the
store's strict schema), together with the generated id and a `createdAt`
timestamp no earlier than the request start time. -/
theorem C1_valid_submission (env : Env) (body : Payload) (reqStart : Nat)
    (e f l c : String)
    (he : body.lookup "email" = some (.str e))
    (hf : body.lookup "firstName" = some (.str f))
    (hl : body.lookup "lastName" = some (.str l))
    (hc : body.lookup "country" = some (.str c))
    (hne : e ≠ "") (hmatch : emailRegexMatch e = true)
    (hnf : jsTrim f ≠ "") (hnl : jsTrim l ≠ "") (hnc : c ≠ "")
    (hstore : env.store = .ok) (hclock : reqStart ≤ env.now) :
    (submitApplication env body).status = 201 ∧
    (submitApplication env body).data =
      some { id := env.newId, email := e, firstName := jsTrim f,
             lastName := jsTrim l, country := c,
             searchFilters := castFilters (restFields body),
             createdAt := env.now } ∧
    ∀ r, (submitApplication env body).data = some r → reqStart ≤ r.createdAt := by
  rw [submit_ok env body e f l c he hf hl hc hne hmatch hnf hnl hnc hstore]
  refine ⟨rfl, rfl, ?_⟩
  intro r hr
  rw [Option.some.injEq] at hr
  subst hr
  exact hclock

/-- Witness for C1 at a concrete valid payload. -/
theorem C1_valid_submission_witness :
    emailRegexMatch "a@b.com" = true ∧
    (submitApplication ⟨.ok, true, 7, 1000⟩
      [("email", JsValue.str "a@b.com"), ("firstName", JsValue.str " Jo "),
       ("lastName", JsValue.str "Doe"), ("country", JsValue.str "US"),
       ("city", JsValue.str "NYC")]).status = 201 ∧
    (submitApplication ⟨.ok, true, 7, 1000⟩
      [("email", JsValue.str "a@b.com"), ("firstName", JsValue.str " Jo "),
       ("lastName", JsValue.str "Doe"), ("country", JsValue.str "US"),
       ("city", JsValue.str "NYC")]).data =
      some { id := 7, email := "a@b.com", firstName := jsTrim " Jo ",
             lastName := jsTrim "Doe", country := "US",
             searchFilters := castFilters (restFields
               [("email", JsValue.str "a@b.com"), ("firstName", JsValue.str " Jo "),
                ("lastName", JsValue.str "Doe"), ("country", JsValue.str "US"),
                ("city", JsValue.str "NYC")]),
             createdAt := 1000 } := by
  have h := C1_valid_submission ⟨.ok, true, 7, 1000⟩
    [("email", JsValue.str "a@b.com"), ("firstName", JsValue.str " Jo "),
     ("lastName", JsValue.str "Doe"), ("country", JsValue.str "US"),
     ("city", JsValue.str "NYC")] 900 "a@b.com" " Jo " "Doe" "US"
    (by decide) (by decide) (by decide) (by decide) (by decide) (by decide)
    (by decide) (by decide) (by decide) rfl (by decide)
  exact ⟨by decide, h.1, h.2.1⟩

/-! ## C2 -/

/-- C2: a payload in which some required field is absent or the empty string
gets a 400 whose error text is the one message joining every missing field,
and nothing is persisted and no notification is sent. -/
theorem C2_missing_required_field (env : Env) (body : Payload) (g : String)
    (hg : g ∈ requiredFields)
    (habs : body.lookup g = none ∨ body.lookup g = some (.str "")) :
    (submitApplication env body).status = 400 ∧
    (submitApplication env body).success = false ∧
    (submitApplication env body).error =
      some ("Missing required fields: " ++
        String.intercalate ", " (missingFields body)) ∧
    g ∈ missingFields body ∧
    (∀ f ∈ requiredFields, truthyOpt (body.lookup f) = false →
      f ∈ missingFields body) ∧
    (submitApplication env body).persisted = none ∧
    (submitApplication env body).emailSent = false := by
  have hgm : g ∈ missingFields body := by
    unfold missingFields
    rw [List.mem_filter]
    refine ⟨hg, ?_⟩
    rcases habs with h | h <;> simp [h, truthyOpt, truthy]
  have hlen : (missingFields body).length > 0 :=
    List.length_pos.mpr (List.ne_nil_of_mem hgm)
  rw [submitApplication_unfold, if_pos hlen]
  refine ⟨rfl, rfl, rfl, hgm, ?_, rfl, rfl⟩
  intro f hf hfal
  unfold missingFields
  rw [List.mem_filter]
  exact ⟨hf, by simp [hfal]⟩

/-- Witness for C2: payload with `lastName` absent and `country` empty. -/
theorem C2_missing_required_field_witness :
    "lastName" ∈ requiredFields ∧
    (submitApplication ⟨.ok, true, 7, 1000⟩
      [("email", JsValue.str "a@b.com"), ("firstName", JsValue.str "Jo"),
       ("country", JsValue.str "")]).status = 400 ∧
    (submitApplication ⟨.ok, true, 7, 1000⟩
      [("email", JsValue.str "a@b.com"), ("firstName", JsValue.str "Jo"),
       ("country", JsValue.str "")]).error =
      some "Missing required fields: lastName, country" ∧
    (submitApplication ⟨.ok, true, 7, 1000⟩
      [("email", JsValue.str "a@b.com"), ("firstName", JsValue.str "Jo"),
       ("country", JsValue.str "")]).persisted = none ∧
    (submitApplication ⟨.ok, true, 7, 1000⟩
      [("email", JsValue.str "a@b.com"), ("firstName", JsValue.str "Jo"),
       ("country", JsValue.str "")]).emailSent = false := by
  have h := C2_missing_required_field ⟨.ok, true, 7, 1000⟩
    [("email", JsValue.str "a@b.com"), ("firstName", JsValue.str "Jo"),
     ("country", JsValue.str "")] "lastName" (by decide) (Or.inl (by decide))
  refine ⟨by decide, h.1, ?_, h.2.2.2.2.2.1, h.2.2.2.2.2.2⟩
  rw [h.2.2.1]
  decide

/-! ## C9 -/

/-- C9: a required field present with a falsy value (0, false, null, "") is
treated as missing — its name lands in `missingFields`, the response is the
400 missing-fields one. -/
theorem C9_falsy_value_counts_missing (env : Env) (body : Payload)
    (g : String) (v : JsValue)
    (hg : g ∈ requiredFields) (hv : body.lookup g = some v)
    (hfal : truthy v = false) :
    g ∈ missingFields body ∧
    (submitApplication env body).status = 400 ∧
    (submitApplication env body).error =
      some ("Missing required fields: " ++
        String.intercalate ", " (missingFields body)) := by
  have hgm : g ∈ missingFields body := by
    unfold missingFields
    rw [List.mem_filter]
    exact ⟨hg, by simp [hv, truthyOpt, hfal]⟩
  have hlen : (missingFields body).length > 0 :=
    List.length_pos.mpr (List.ne_nil_of_mem hgm)
  rw [submitApplication_unfold, if_pos hlen]
  exact ⟨hgm, rfl, rfl⟩

/-- Witness for C9: `email` supplied as the number 0 is reported missing. -/
theorem C9_falsy_value_counts_missing_witness :
    (List.lookup "email"
      [("email", JsValue.num 0), ("firstName", JsValue.str "Jo"),
       ("lastName", JsValue.str "Doe"), ("country", JsValue.str "US")])
      = some (JsValue.num 0) ∧
    "email" ∈ missingFields
      [("email", JsValue.num 0), ("firstName", JsValue.str "Jo"),
       ("lastName", JsValue.str "Doe"), ("country", JsValue.str "US")] ∧
    (submitApplication ⟨.ok, true, 7, 1000⟩
      [("email", JsValue.num 0), ("firstName", JsValue.str "Jo"),
       ("lastName", JsValue.str "Doe"), ("country", JsValue.str "US")]).status
      = 400 ∧
    (submitApplication ⟨.ok, true, 7, 1000⟩
      [("email", JsValue.num 0), ("firstName", JsValue.str "Jo"),
       ("lastName", JsValue.str "Doe"), ("country", JsValue.str "US")]).error
      = some "Missing required fields: email" := by
  have h := C9_falsy_value_counts_missing ⟨.ok, true, 7, 1000⟩
    [("email", JsValue.num 0), ("firstName", JsValue.str "Jo"),
     ("lastName", JsValue.str "Doe"), ("country", JsValue.str "US")]
    "email" (JsValue.num 0) (by decide) (by decide) (by decide)
  refine ⟨by decide, h.1, h.2.1, ?_⟩
  rw [h.2.2]
  decide

/-! ## C10 -/

/-- C10: every run of the submit handler responds (the model is a total
function into responses carrying a boolean `success`), `success` is true
exactly on status 201, and the status is always one of 201, 400, 500. -/
theorem C10_success_iff_201 (env : Env) (body : Payload) :
    ((submitApplication env body).success = true ↔
      (submitApplication env body).status = 201) ∧
    ((submitApplication env body).status = 201 ∨
     (submitApplication env body).status = 400 ∨
     (submitApplication env body).status = 500) := by
  rw [submitApplication_unfold]
  split
  · simp
  · split
    · simp
    · split <;> simp

/-! ## More shared helpers -/

theorem missingFields_nil_of_strings (body : Payload) (e f l c : String)
    (he : body.lookup "email" = some (.str e))
    (hf : body.lookup "firstName" = some (.str f))
    (hl : body.lookup "lastName" = some (.str l))
    (hc : body.lookup "country" = some (.str c))
    (hne : e ≠ "") (hf0 : f ≠ "") (hl0 : l ≠ "") (hc0 : c ≠ "") :
    missingFields body = [] := by
  apply missingFields_eq_nil
  intro g hg
  fin_cases hg <;> simp [he, hf, hl, hc, truthyOpt, truthy, hne, hf0, hl0, hc0]

/-- The path through the handler in which the four fields are truthy strings
but the schema rejects the cast/trimmed document: `Application.create`
rejects with a `ValidationError`, mapped to a 400. -/
theorem submit_validation_fail (env : Env) (body : Payload) (e f l c : String)
    (he : body.lookup "email" = some (.str e))
    (hf : body.lookup "firstName" = some (.str f))
    (hl : body.lookup "lastName" = some (.str l))
    (hc : body.lookup "country" = some (.str c))
    (hne : e ≠ "") (hf0 : f ≠ "") (hl0 : l ≠ "") (hc0 : c ≠ "")
    (hval : (validateApplication (some e) (some (jsTrim f)) (some (jsTrim l))
      (some c)).isEmpty = false) :
    submitApplication env body =
      { status := 400, success := false,
        error := some
          (if valErrMessage (validateApplication (some e) (some (jsTrim f))
              (some (jsTrim l)) (some c)) == "" then "Internal server error"
           else valErrMessage (validateApplication (some e) (some (jsTrim f))
              (some (jsTrim l)) (some c))),
        message := none, data := none, persisted := none, emailSent := false } := by
  have hmiss := missingFields_nil_of_strings body e f l c he hf hl hc hne hf0 hl0 hc0
  rw [submitApplication_unfold, hmiss]
  simp only [List.length_nil, gt_iff_lt, lt_self_iff_false, if_false]
  rw [he, hf, hl, hc, applicationCreate_unfold]
  simp only [castString, Option.map]
  rw [hval]
  simp

/-- The path through the handler in which the document validates but the
store insert itself fails with an arbitrary error. -/
theorem submit_store_fail (env : Env) (body : Payload) (e f l c n m : String)
    (he : body.lookup "email" = some (.str e))
    (hf : body.lookup "firstName" = some (.str f))
    (hl : body.lookup "lastName" = some (.str l))
    (hc : body.lookup "country" = some (.str c))
    (hne : e ≠ "") (hmatch : emailRegexMatch e = true)
    (hnf : jsTrim f ≠ "") (hnl : jsTrim l ≠ "") (hnc : c ≠ "")
    (hstore : env.store = .fail n m) :
    submitApplication env body =
      { status := if n == "ValidationError" then 400 else 500,
        success := false,
        error := some (if m == "" then "Internal server error" else m),
        message := none, data := none, persisted := none, emailSent := false } := by
  have hf0 : f ≠ "" := fun h => hnf (by rw [h, jsTrim_empty])
  have hl0 : l ≠ "" := fun h => hnl (by rw [h, jsTrim_empty])
  have hmiss := missingFields_nil_of_strings body e f l c he hf hl hc hne hf0 hl0 hnc
  rw [submitApplication_unfold, hmiss]
  simp only [List.length_nil, gt_iff_lt, lt_self_iff_false, if_false]
  rw [he, hf, hl, hc, applicationCreate_unfold]
  simp only [castString, Option.map]
  have hvalid : validateApplication (some e) (some (jsTrim f)) (some (jsTrim l))
      (some c) = [] := by
    unfold validateApplication
    simp [requiredOk, hne, hmatch, hnf, hnl, hnc]
  rw [hvalid]
  simp [hstore]

/-! ## C3 -/

/-- C3 counterexample: on a non-validation store failure the handler does not
answer with a generic message — it copies the store error's own message into
the response body (`error.message || 'Internal server error'`). -/
theorem C3_counterexample :
    (submitApplication
      ⟨.fail "MongoNetworkError" "connect ECONNREFUSED 127.0.0.1:27017", true, 7, 1000⟩
      [("email", JsValue.str "a@b.com"), ("firstName", JsValue.str "Jo"),
       ("lastName", JsValue.str "Doe"), ("country", JsValue.str "US")]).status = 500 ∧
    (submitApplication
      ⟨.fail "MongoNetworkError" "connect ECONNREFUSED 127.0.0.1:27017", true, 7, 1000⟩
      [("email", JsValue.str "a@b.com"), ("firstName", JsValue.str "Jo"),
       ("lastName", JsValue.str "Doe"), ("country", JsValue.str "US")]).error =
      some "connect ECONNREFUSED 127.0.0.1:27017" ∧
    (submitApplication
      ⟨.fail "MongoNetworkError" "connect ECONNREFUSED 127.0.0.1:27017", true, 7, 1000⟩
      [("email", JsValue.str "a@b.com"), ("firstName", JsValue.str "Jo"),
       ("lastName", JsValue.str "Doe"), ("country", JsValue.str "US")]).error ≠
      some "Internal server error" := by decide

/-- C3 (amended): a non-validation store failure on an otherwise valid
submission yields a 500 whose body carries the failing error's own message,
falling back to the generic `Internal server error` only when that message is
empty; nothing is persisted and no mail goes out. -/
theorem C3_store_failure (env : Env) (body : Payload) (e f l c n m : String)
    (he : body.lookup "email" = some (.str e))
    (hf : body.lookup "firstName" = some (.str f))
    (hl : body.lookup "lastName" = some (.str l))
    (hc : body.lookup "country" = some (.str c))
    (hne : e ≠ "") (hmatch : emailRegexMatch e = true)
    (hnf : jsTrim f ≠ "") (hnl : jsTrim l ≠ "") (hnc : c ≠ "")
    (hstore : env.store = .fail n m) (hn : n ≠ "ValidationError") :
    (submitApplication env body).status = 500 ∧
    (submitApplication env body).success = false ∧
    (submitApplication env body).error =
      some (if m = "" then "Internal server error" else m) ∧
    (submitApplication env body).persisted = none ∧
    (submitApplication env body).emailSent = false := by
  rw [submit_store_fail env body e f l c n m he hf hl hc hne hmatch hnf hnl hnc hstore]
  refine ⟨?_, rfl, ?_, rfl, rfl⟩
  · simp [hn]
  · simp

/-- Witness for C3 (amended) at a concrete network failure. -/
theorem C3_store_failure_witness :
    emailRegexMatch "a@b.com" = true ∧
    (submitApplication ⟨.fail "MongoNetworkError" "server selection timed out", true, 7, 1000⟩
      [("email", JsValue.str "a@b.com"), ("firstName", JsValue.str "Jo"),
       ("lastName", JsValue.str "Doe"), ("country", JsValue.str "US")]).status = 500 ∧
    (submitApplication ⟨.fail "MongoNetworkError" "server selection timed out", true, 7, 1000⟩
      [("email", JsValue.str "a@b.com"), ("firstName", JsValue.str "Jo"),
       ("lastName", JsValue.str "Doe"), ("country", JsValue.str "US")]).error =
      some (if "server selection timed out" = "" then "Internal server error"
            else "server selection timed out") ∧
    (submitApplication ⟨.fail "MongoNetworkError" "server selection timed out", true, 7, 1000⟩
      [("email", JsValue.str "a@b.com"), ("firstName", JsValue.str "Jo"),
       ("lastName", JsValue.str "Doe"), ("country", JsValue.str "US")]).persisted
      = none := by
  have h := C3_store_failure
    ⟨.fail "MongoNetworkError" "server selection timed out", true, 7, 1000⟩
    [("email", JsValue.str "a@b.com"), ("firstName", JsValue.str "Jo"),
     ("lastName", JsValue.str "Doe"), ("country", JsValue.str "US")]
    "a@b.com" "Jo" "Doe" "US" "MongoNetworkError" "server selection timed out"
    (by decide) (by decide) (by decide) (by decide) (by decide) (by decide)
    (by decide) (by decide) (by decide) rfl (by decide)
  exact ⟨by decide, h.1, h.2.2.1, h.2.2.2.1⟩

/-! ## C4 -/

/-- C4: when the mailer's send fails on an otherwise valid submission, the
response is still a 201 and the record is still persisted; only the
notification is lost. -/
theorem C4_mailer_failure (env : Env) (body : Payload) (e f l c : String)
    (he : body.lookup "email" = some (.str e))
    (hf : body.lookup "firstName" = some (.str f))
    (hl : body.lookup "lastName" = some (.str l))
    (hc : body.lookup "country" = some (.str c))
    (hne : e ≠ "") (hmatch : emailRegexMatch e = true)
    (hnf : jsTrim f ≠ "") (hnl : jsTrim l ≠ "") (hnc : c ≠ "")
    (hstore : env.store = .ok) (hmail : env.mailOk = false) :
    (submitApplication env body).status = 201 ∧
    (submitApplication env body).success = true ∧
    (submitApplication env body).persisted =
      some { id := env.newId, email := e, firstName := jsTrim f,
             lastName := jsTrim l, country := c,
             searchFilters := castFilters (restFields body),
             createdAt := env.now } ∧
    (submitApplication env body).emailSent = false := by
  rw [submit_ok env body e f l c he hf hl hc hne hmatch hnf hnl hnc hstore]
  exact ⟨rfl, rfl, rfl, hmail⟩

/-- Witness for C4: mail transport down, record still stored with a 201. -/
theorem C4_mailer_failure_witness :
    emailRegexMatch "a@b.com" = true ∧
    (submitApplication ⟨.ok, false, 7, 1000⟩
      [("email", JsValue.str "a@b.com"), ("firstName", JsValue.str "Jo"),
       ("lastName", JsValue.str "Doe"), ("country", JsValue.str "US")]).status = 201 ∧
    (submitApplication ⟨.ok, false, 7, 1000⟩
      [("email", JsValue.str "a@b.com"), ("firstName", JsValue.str "Jo"),
       ("lastName", JsValue.str "Doe"), ("country", JsValue.str "US")]).persisted =
      some { id := 7, email := "a@b.com", firstName := jsTrim "Jo",
             lastName := jsTrim "Doe", country := "US",
             searchFilters := castFilters (restFields
               [("email", JsValue.str "a@b.com"), ("firstName", JsValue.str "Jo"),
                ("lastName", JsValue.str "Doe"), ("country", JsValue.str "US")]),
             createdAt := 1000 } ∧
    (submitApplication ⟨.ok, false, 7, 1000⟩
      [("email", JsValue.str "a@b.com"), ("firstName", JsValue.str "Jo"),
       ("lastName", JsValue.str "Doe"), ("country", JsValue.str "US")]).emailSent
      = false := by
  have h := C4_mailer_failure ⟨.ok, false, 7, 1000⟩
    [("email", JsValue.str "a@b.com"), ("firstName", JsValue.str "Jo"),
     ("lastName", JsValue.str "Doe"), ("country", JsValue.str "US")]
    "a@b.com" "Jo" "Doe" "US"
    (by decide) (by decide) (by decide) (by decide) (by decide) (by decide)
    (by decide) (by decide) (by decide) rfl rfl
  exact ⟨by decide, h.1, h.2.2.1, h.2.2.2⟩

/-! ## C6 -/

/-- C6: surrounding whitespace is trimmed from `firstName` and `lastName`
before persistence, and on the spec's example input the stored record is
exactly `firstName "Jo"`, `lastName "Doe"`, `searchFilters {city: "NYC"}`. -/
theorem C6_names_trimmed (env : Env) (body : Payload) (e f l c : String)
    (he : body.lookup "email" = some (.str e))
    (hf : body.lookup "firstName" = some (.str f))
    (hl : body.lookup "lastName" = some (.str l))
    (hc : body.lookup "country" = some (.str c))
    (hne : e ≠ "") (hmatch : emailRegexMatch e = true)
    (hnf : jsTrim f ≠ "") (hnl : jsTrim l ≠ "") (hnc : c ≠ "")
    (hstore : env.store = .ok) :
    (submitApplication env body).persisted.map StoredRecord.firstName =
      some (jsTrim f) ∧
    (submitApplication env body).persisted.map StoredRecord.lastName =
      some (jsTrim l) ∧
    (submitApplication ⟨.ok, true, 7, 1000⟩
      [("email", JsValue.str "a@b.com"), ("firstName", JsValue.str " Jo "),
       ("lastName", JsValue.str "Doe"), ("country", JsValue.str "US"),
       ("city", JsValue.str "NYC")]).persisted =
      some ⟨7, "a@b.com", "Jo", "Doe", "US", [("city", "NYC")], 1000⟩ := by
  rw [submit_ok env body e f l c he hf hl hc hne hmatch hnf hnl hnc hstore]
  exact ⟨rfl, rfl, by decide⟩

/-- Witness for C6 at the spec's example payload. -/
theorem C6_names_trimmed_witness :
    jsTrim " Jo " ≠ "" ∧
    (submitApplication ⟨.ok, true, 7, 1000⟩
      [("email", JsValue.str "a@b.com"), ("firstName", JsValue.str " Jo "),
       ("lastName", JsValue.str "Doe"), ("country", JsValue.str "US"),
       ("city", JsValue.str "NYC")]).persisted.map StoredRecord.firstName =
      some (jsTrim " Jo ") ∧
    (submitApplication ⟨.ok, true, 7, 1000⟩
      [("email", JsValue.str "a@b.com"), ("firstName", JsValue.str " Jo "),
       ("lastName", JsValue.str "Doe"), ("country", JsValue.str "US"),
       ("city", JsValue.str "NYC")]).persisted =
      some ⟨7, "a@b.com", "Jo", "Doe", "US", [("city", "NYC")], 1000⟩ := by
  have h := C6_names_trimmed ⟨.ok, true, 7, 1000⟩
    [("email", JsValue.str "a@b.com"), ("firstName", JsValue.str " Jo "),
     ("lastName", JsValue.str "Doe"), ("country", JsValue.str "US"),
     ("city", JsValue.str "NYC")]
    "a@b.com" " Jo " "Doe" "US"
    (by decide) (by decide) (by decide) (by decide) (by decide) (by decide)
    (by decide) (by decide) (by decide) rfl
  exact ⟨by decide, h.1, h.2.2⟩

/-! ## C7 -/

/-- C7: a `firstName` or `lastName` that is non-empty but all whitespace
passes the handler's truthiness check, but the trim setter empties it and the
schema's `required` validator rejects: 400, nothing persisted. -/
theorem C7_whitespace_only_name (env : Env) (body : Payload) (e f l c : String)
    (he : body.lookup "email" = some (.str e))
    (hf : body.lookup "firstName" = some (.str f))
    (hl : body.lookup "lastName" = some (.str l))
    (hc : body.lookup "country" = some (.str c))
    (hne : e ≠ "") (hmatch : emailRegexMatch e = true)
    (hf0 : f ≠ "") (hl0 : l ≠ "") (hnc : c ≠ "")
    (hws : jsTrim f = "" ∨ jsTrim l = "") :
    (submitApplication env body).status = 400 ∧
    (submitApplication env body).success = false ∧
    (submitApplication env body).persisted = none := by
  have hval : (validateApplication (some e) (some (jsTrim f)) (some (jsTrim l))
      (some c)).isEmpty = false := by
    rcases hws with h | h <;>
      simp [validateApplication, requiredOk, hne, hmatch, hnc, h]
  rw [submit_validation_fail env body e f l c he hf hl hc hne hf0 hl0 hnc hval]
  exact ⟨rfl, rfl, rfl⟩

/-- Witness for C7: a whitespace-only first name. -/
theorem C7_whitespace_only_name_witness :
    jsTrim "   " = "" ∧ ("   " : String) ≠ "" ∧
    (submitApplication ⟨.ok, true, 7, 1000⟩
      [("email", JsValue.str "a@b.com"), ("firstName", JsValue.str "   "),
       ("lastName", JsValue.str "Doe"), ("country", JsValue.str "US")]).status = 400 ∧
    (submitApplication ⟨.ok, true, 7, 1000⟩
      [("email", JsValue.str "a@b.com"), ("firstName", JsValue.str "   "),
       ("lastName", JsValue.str "Doe"), ("country", JsValue.str "US")]).persisted
      = none := by
  have h := C7_whitespace_only_name ⟨.ok, true, 7, 1000⟩
    [("email", JsValue.str "a@b.com"), ("firstName", JsValue.str "   "),
     ("lastName", JsValue.str "Doe"), ("country", JsValue.str "US")]
    "a@b.com" "   " "Doe" "US"
    (by decide) (by decide) (by decide) (by decide) (by decide) (by decide)
    (by decide) (by decide) (by decide) (Or.inl (by decide))
  exact ⟨by decide, by decide, h.1, h.2.2⟩

/-! ## C5 -/

/-- If the schema regex matches, the string has an at-sign with a dot
strictly after it. -/
theorem emailRegexMatch_spec (s : String) (h : emailRegexMatch s = true) :
    ∃ b c : Nat, ∃ hb : b < s.toList.length, ∃ hc : c < s.toList.length,
      b < c ∧ s.toList.get ⟨b, hb⟩ = '@' ∧ s.toList.get ⟨c, hc⟩ = '.' := by
  unfold emailRegexMatch at h
  simp only [List.any_eq_true, List.mem_range, Bool.and_eq_true, beq_iff_eq,
    decide_eq_true_eq] at h
  obtain ⟨b, hb, c, hc, hcond⟩ := h
  obtain ⟨⟨⟨⟨⟨⟨⟨hat, hdot⟩, h1b⟩, hpre⟩, hbc⟩, hmid⟩, hcl⟩, hpost⟩ := hcond
  refine ⟨b, c, hb, hc, by omega, ?_, ?_⟩
  · rw [← List.getD_eq_get s.toList ' ' hb]
    exact hat
  · rw [← List.getD_eq_get s.toList ' ' hc]
    exact hdot

/-- A string with no at-sign at all, or with no dot anywhere after an
at-sign, cannot match the schema regex. -/
theorem emailRegexMatch_false_of_invalid (s : String)
    (h : (∀ ch ∈ s.toList, ch ≠ '@') ∨
         (∀ (b c : Nat) (hb : b < s.toList.length) (hc : c < s.toList.length),
           b < c → s.toList.get ⟨b, hb⟩ = '@' → s.toList.get ⟨c, hc⟩ ≠ '.')) :
    emailRegexMatch s = false := by
  by_contra hx
  rw [Bool.not_eq_false] at hx
  obtain ⟨b, c, hb, hc, hbc, hat, hdot⟩ := emailRegexMatch_spec s hx
  rcases h with h | h
  · exact h _ (List.get_mem _ _ _) hat
  · exact h b c hb hc hbc hat hdot

/-- C5: a payload whose email is a non-empty string that is syntactically
invalid — no at-sign, or no dot after an at-sign — is rejected with a 400 (at
store-schema validation) and nothing is persisted. -/
theorem C5_invalid_email (env : Env) (body : Payload) (e f l c : String)
    (he : body.lookup "email" = some (.str e))
    (hf : body.lookup "firstName" = some (.str f))
    (hl : body.lookup "lastName" = some (.str l))
    (hc : body.lookup "country" = some (.str c))
    (hne : e ≠ "")
    (hinv : (∀ ch ∈ e.toList, ch ≠ '@') ∨
            (∀ (b d : Nat) (hb : b < e.toList.length) (hd : d < e.toList.length),
              b < d → e.toList.get ⟨b, hb⟩ = '@' → e.toList.get ⟨d, hd⟩ ≠ '.'))
    (hnf : jsTrim f ≠ "") (hnl : jsTrim l ≠ "") (hnc : c ≠ "") :
    (submitApplication env body).status = 400 ∧
    (submitApplication env body).success = false ∧
    (submitApplication env body).persisted = none := by
  have hm : emailRegexMatch e = false := emailRegexMatch_false_of_invalid e hinv
  have hf0 : f ≠ "" := fun hh => hnf (by rw [hh, jsTrim_empty])
  have hl0 : l ≠ "" := fun hh => hnl (by rw [hh, jsTrim_empty])
  have hval : (validateApplication (some e) (some (jsTrim f)) (some (jsTrim l))
      (some c)).isEmpty = false := by
    simp [validateApplication, requiredOk, hne, hm]
  rw [submit_validation_fail env body e f l c he hf hl hc hne hf0 hl0 hnc hval]
  exact ⟨rfl, rfl, rfl⟩

/-- Witness for C5: an email with no at-sign is rejected with a 400. -/
theorem C5_invalid_email_witness :
    (∀ ch ∈ ("plainaddress" : String).toList, ch ≠ '@') ∧
    (submitApplication ⟨.ok, true, 7, 1000⟩
      [("email", JsValue.str "plainaddress"), ("firstName", JsValue.str "Jo"),
       ("lastName", JsValue.str "Doe"), ("country", JsValue.str "US")]).status = 400 ∧
    (submitApplication ⟨.ok, true, 7, 1000⟩
      [("email", JsValue.str "plainaddress"), ("firstName", JsValue.str "Jo"),
       ("lastName", JsValue.str "Doe"), ("country", JsValue.str "US")]).persisted
      = none := by
  have h := C5_invalid_email ⟨.ok, true, 7, 1000⟩
    [("email", JsValue.str "plainaddress"), ("firstName", JsValue.str "Jo"),
     ("lastName", JsValue.str "Doe"), ("country", JsValue.str "US")]
    "plainaddress" "Jo" "Doe" "US"
    (by decide) (by decide) (by decide) (by decide) (by decide)
    (Or.inl (by decide)) (by decide) (by decide) (by decide)
  exact ⟨by decide, h.1, h.2.2⟩

/-! ## C8 -/

theorem digitChar_isDigit (n : Nat) : (digitChar n).isDigit = true := by
  unfold digitChar
  have h : n % 10 < 10 := Nat.mod_lt _ (by decide)
  set k := n % 10 with hk
  interval_cases k <;> rfl

theorem digitVal_digitChar (n : Nat) : digitVal (digitChar n) = n % 10 := by
  unfold digitChar
  have h : n % 10 < 10 := Nat.mod_lt _ (by decide)
  set k := n % 10 with hk
  interval_cases k <;> rfl

/-- The validator applied to the formatter's output, computed: the separator
positions all hold, leaving the digit and range checks. -/
theorem isValidISO8601_toISOString_eq (d : DateTime) :
    isValidISO8601 (toISOString d) =
    ([digitChar (d.year / 1000), digitChar (d.year / 100), digitChar (d.year / 10),
      digitChar d.year, digitChar (d.month / 10), digitChar d.month,
      digitChar (d.day / 10), digitChar d.day, digitChar (d.hour / 10), digitChar d.hour,
      digitChar (d.minute / 10), digitChar d.minute,
      digitChar (d.second / 10), digitChar d.second,
      digitChar (d.ms / 100), digitChar (d.ms / 10), digitChar d.ms].all Char.isDigit &&
     (decide (1 ≤ digitVal (digitChar (d.month / 10)) * 10 + digitVal (digitChar d.month)) &&
      decide (digitVal (digitChar (d.month / 10)) * 10 + digitVal (digitChar d.month) ≤ 12) &&
      decide (1 ≤ digitVal (digitChar (d.day / 10)) * 10 + digitVal (digitChar d.day)) &&
      decide (digitVal (digitChar (d.day / 10)) * 10 + digitVal (digitChar d.day) ≤ 31) &&
      decide (digitVal (digitChar (d.hour / 10)) * 10 + digitVal (digitChar d.hour) ≤ 23) &&
      decide (digitVal (digitChar (d.minute / 10)) * 10 + digitVal (digitChar d.minute) ≤ 59) &&
      decide (digitVal (digitChar (d.second / 10)) * 10 + digitVal (digitChar d.second) ≤ 59))) := rfl

/-- On any well-formed clock reading the formatter's output passes the
ISO-8601 validity check. -/
theorem isValidISO8601_toISOString (d : DateTime) (h : d.wf) :
    isValidISO8601 (toISOString d) = true := by
  obtain ⟨hy1, hy2, hmo1, hmo2, hd1, hd2, hhr, hmin, hsec, hms⟩ := h
  rw [isValidISO8601_toISOString_eq]
  simp only [List.all_cons, List.all_nil, digitChar_isDigit, Bool.and_true,
    Bool.true_and, digitVal_digitChar, Bool.and_eq_true, decide_eq_true_eq]
  repeat' apply And.intro
  all_goals omega

/-- C8: the health probe answers 200 with status `operational`, reports
`connected` exactly when the store connection is live (mongoose readyState 1)
and `disconnected` otherwise, and its timestamp is a valid ISO-8601 string. -/
theorem C8_health_response (readyState : Nat) (now : DateTime) (h : now.wf) :
    (healthHandler readyState now).statusCode = 200 ∧
    (healthHandler readyState now).status = "operational" ∧
    ((healthHandler readyState now).database = "connected" ↔ readyState = 1) ∧
    ((healthHandler readyState now).database = "connected" ∨
     (healthHandler readyState now).database = "disconnected") ∧
    isValidISO8601 (healthHandler readyState now).timestamp = true := by
  refine ⟨rfl, rfl, ?_, ?_, isValidISO8601_toISOString now h⟩
  · unfold healthHandler
    by_cases hr : readyState = 1 <;> simp [hr]
  · unfold healthHandler
    by_cases hr : readyState = 1 <;> simp [hr]

/-- Witness for C8 at a live connection and a concrete clock reading. -/
theorem C8_health_response_witness :
    (⟨2026, 10, 12, 9, 30, 5, 123⟩ : DateTime).wf ∧
    (healthHandler 1 ⟨2026, 10, 12, 9, 30, 5, 123⟩).statusCode = 200 ∧
    (healthHandler 1 ⟨2026, 10, 12, 9, 30, 5, 123⟩).status = "operational" ∧
    (healthHandler 1 ⟨2026, 10, 12, 9, 30, 5, 123⟩).database = "connected" ∧
    isValidISO8601 (healthHandler 1 ⟨2026, 10, 12, 9, 30, 5, 123⟩).timestamp
      = true := by
  have h := C8_health_response 1 ⟨2026, 10, 12, 9, 30, 5, 123⟩ (by decide)
  exact ⟨by decide, h.1, h.2.1, h.2.2.1.mpr rfl, h.2.2.2.2⟩
